import Mathlib

/-!
# Verification of the NBA player-report scripts

Shallow embedding of the two computational cores of the repository
(`src/app.py`, with a near-duplicate earlier copy in `src/nba_app.py`):

* `analyze_style` — the rule-based style classifier (app.py lines 209-237);
* `get_closest_match` — the comparable-player engine (app.py lines 161-206)
  together with `get_all_player_stats` (app.py lines 25-43).

Python floats are modelled by exact rationals (`ℚ`); the stats provider and
its table are modelled explicitly as parameters; functions that may raise in
Python but whose failures are caught are modelled with `Option`.
-/

namespace Nba

/-! ## Style classifier (`analyze_style`, app.py lines 209-237)

The report dictionary stores each per-game stat either as a number or as the
textual `'N/A'` marker used for a season with no games played
(app.py lines 134-140).  `float` applied to the marker raises `ValueError`,
which `analyze_style` catches. -/

/-- A per-game stat value as stored in the report dictionary: a number, or the
`'N/A'` marker (a non-numeric string). -/
inductive StatValue where
  | num (q : ℚ)
  | na
deriving DecidableEq

/-- Conversion `float(v)`: succeeds on a number, raises `ValueError` (modelled as `none`)
on the non-numeric `'N/A'` marker. -/
def floatOfStat : StatValue → Option ℚ
  | .num q => some q
  | .na => none

/-- The three entries of the report dictionary read by `analyze_style`
(`stats.get('pts', 0)` etc.); a missing entry defaults to `0`. -/
structure StyleStats where
  pts : Option StatValue
  ast : Option StatValue
  reb : Option StatValue

/-- Result of `analyze_style`: the `core_style` label and the
`simple_rating` text. -/
structure StyleResult where
  core_style : String
  simple_rating : String
deriving DecidableEq

/-- Constants `HIGH_PTS, HIGH_AST, HIGH_REB = 25, 8, 10` (app.py line 218). -/
def HIGH_PTS : ℚ := 25

def HIGH_AST : ℚ := 8

def HIGH_REB : ℚ := 10

/-- The `if/elif/else` threshold chain of `analyze_style` (app.py lines
221-235), reached once all three stats convert to numbers.  The initial
assignment on line 219 is overwritten on every path, so only the branch
results matter.  The copy in nba_app.py (lines 87-106) has the same
conditions in the same order. -/
def analyze_style_num (pts ast reb : ℚ) : StyleResult :=
  if pts ≥ HIGH_PTS ∧ ast ≥ 6 ∧ reb ≥ 6 then
    ⟨"🌟 頂級全能巨星 (Elite All-Around Star)", "集得分、組織和籃板於一身的劃時代球員。"⟩
  else if pts ≥ HIGH_PTS then
    ⟨"得分機器 (Volume Scorer)", "聯盟頂級的得分手，能夠在任何位置取分。"⟩
  else if ast ≥ HIGH_AST ∧ pts ≥ 15 then
    ⟨"🎯 組織大師 (Playmaking Maestro)", "以傳球優先的組織核心，同時具備可靠的得分能力。"⟩
  else if reb ≥ HIGH_REB ∧ pts < 15 then
    ⟨"🧱 籃板/防守支柱 (Rebounding/Defense Anchor)", "內線防守和籃板的專家，隊伍的堅實後盾。"⟩
  else
    ⟨"角色球員 (Role Player)", "一名可靠的輪換球員。"⟩

/-- The insufficient-data result returned from the `except ValueError`
handler (app.py line 216). -/
def insufficientResult : StyleResult :=
  ⟨"數據不足，無法分析", "請嘗試查詢有數據的賽季。"⟩

/-- Function `analyze_style` (app.py lines 209-237): converts the three stats with
`float` inside one `try`; any `ValueError` short-circuits to the
insufficient-data result, otherwise the threshold chain runs. -/
def analyze_style (stats : StyleStats) : StyleResult :=
  match floatOfStat (stats.pts.getD (.num 0)),
        floatOfStat (stats.ast.getD (.num 0)),
        floatOfStat (stats.reb.getD (.num 0)) with
  | some p, some a, some r => analyze_style_num p a r
  | _, _, _ => insufficientResult

/-! ### Spec-side classifier

Transcription of the spec's `classifyStyle` threshold table (spec §4.2),
used as the reference the code is compared against. -/

/-- The five labels of the spec's `classifyStyle`. -/
inductive Label where
  | eliteAllAroundStar
  | volumeScorer
  | playmakingMaestro
  | reboundingDefenseAnchor
  | rolePlayer
deriving DecidableEq

/-- The spec's `classifyStyle(pts, ast, reb)`: thresholds evaluated in order,
first match wins (spec §4.2 rules 1-5). -/
def classifyStyle (pts ast reb : ℚ) : Label :=
  if pts ≥ 25 ∧ ast ≥ 6 ∧ reb ≥ 6 then .eliteAllAroundStar
  else if pts ≥ 25 then .volumeScorer
  else if ast ≥ 8 ∧ pts ≥ 15 then .playmakingMaestro
  else if reb ≥ 10 ∧ pts < 15 then .reboundingDefenseAnchor
  else .rolePlayer

/-- The `core_style` string the code prints for each spec label. -/
def labelText : Label → String
  | .eliteAllAroundStar => "🌟 頂級全能巨星 (Elite All-Around Star)"
  | .volumeScorer => "得分機器 (Volume Scorer)"
  | .playmakingMaestro => "🎯 組織大師 (Playmaking Maestro)"
  | .reboundingDefenseAnchor => "🧱 籃板/防守支柱 (Rebounding/Defense Anchor)"
  | .rolePlayer => "角色球員 (Role Player)"

/-! ## Comparable-player engine (`get_closest_match`, app.py lines 161-206)

`get_all_player_stats` (app.py lines 25-43) fetches the league table from the
external stats provider.  The provider is a parameter here: it maps a season
string to the fetched rows, or to `none` when the fetch (or the column
selection) raises — app.py catches every exception and returns `None`. -/

/- `SIMILARITY_FEATURES = ['PTS','REB','AST','STL','BLK','FG_PCT','FT_PCT']`
(app.py line 23) — seven numeric features per row. -/

/-- One row of the fetched `LeagueDashPlayerStats` table before `fillna(0)`:
numeric stat cells and the position string may be missing (NaN). -/
structure RawPlayerRow where
  PLAYER_NAME : String
  PLAYER_ID : Int
  PLAYER_POSITION : Option String
  PTS : Option ℚ
  REB : Option ℚ
  AST : Option ℚ
  STL : Option ℚ
  BLK : Option ℚ
  FG_PCT : Option ℚ
  FT_PCT : Option ℚ
deriving DecidableEq

/-- One processed row of the baseline table, after `fillna(0)`.  A missing
`PLAYER_POSITION` is replaced by the number `0` by `fillna(0)`; since
`.str.contains(..., na=False)` (app.py line 177) treats that non-string cell
as missing and filters it out, we keep it as `none`. -/
structure PlayerRow where
  PLAYER_NAME : String
  PLAYER_ID : Int
  PLAYER_POSITION : Option String
  PTS : ℚ
  REB : ℚ
  AST : ℚ
  STL : ℚ
  BLK : ℚ
  FG_PCT : ℚ
  FT_PCT : ℚ
deriving DecidableEq

/-- Effect of `df.fillna(0)` (app.py line 39) applied to one row: missing numeric stats
become `0`; a missing position stays non-matchable (see `PlayerRow`). -/
def fillna0 (r : RawPlayerRow) : PlayerRow where
  PLAYER_NAME := r.PLAYER_NAME
  PLAYER_ID := r.PLAYER_ID
  PLAYER_POSITION := r.PLAYER_POSITION
  PTS := r.PTS.getD 0
  REB := r.REB.getD 0
  AST := r.AST.getD 0
  STL := r.STL.getD 0
  BLK := r.BLK.getD 0
  FG_PCT := r.FG_PCT.getD 0
  FT_PCT := r.FT_PCT.getD 0

/-- Function `get_all_player_stats(season)` (app.py lines 25-43): the `season`
argument is ignored — the function always fetches the hardcoded
`BASELINE_SEASON = '2023-24'` table — and the selected columns are
`fillna(0)`-processed.  Any exception yields `None`. -/
def get_all_player_stats (provider : String → Option (List RawPlayerRow))
    (season : String) : Option (List PlayerRow) :=
  (provider "2023-24").map (List.map fillna0)

/-- The fields of the report dictionary that `get_closest_match` reads
(app.py lines 173-190).  It is only called when the season has data
(app.py line 248), so all stats are numeric. -/
structure TargetStats where
  name : String
  position : String
  pts : ℚ
  reb : ℚ
  ast : ℚ
  stl : ℚ
  blk : ℚ
  fg_pct_raw : ℚ
  ft_pct_raw : ℚ

/-! ### Position filter (app.py line 177) -/

/-- Test that `pat` occurs as a contiguous substring of `hay` (the semantics of
`str.contains` with a literal pattern; the single-character patterns arising
from position labels contain no regex metacharacters). -/
def hasSubstr (pat : List Char) : List Char → Bool
  | [] => pat.isPrefixOf []
  | c :: t => pat.isPrefixOf (c :: t) || hasSubstr pat t

/-- Lowercased character list of a string, for the `case=False` match. -/
def lowerChars (s : String) : List Char :=
  s.toList.map Char.toLower

/-- Cell test `row['PLAYER_POSITION'].str.contains(target_position[:1], case=False,
na=False)` for one cell: case-insensitive substring test against the first
character of the target's position, `false` on a missing cell. -/
def posContains (pos : Option String) (pat : String) : Bool :=
  match pos with
  | some p => hasSubstr (lowerChars pat) (lowerChars p)
  | none => false

/-- Filter result `filtered_df` (app.py line 177): rows whose position string contains the
first character `target_position[:1]` of the target's position label. -/
def position_filtered (t : TargetStats) (pop : List PlayerRow) : List PlayerRow :=
  pop.filter (fun r => posContains r.PLAYER_POSITION (t.position.take 1))

/-- Pool `comparison_df` (app.py lines 178-179): the position-filtered rows minus
the target's own name, restricted to `PTS >= 5`. -/
def comparisonPool (t : TargetStats) (pop : List PlayerRow) : List PlayerRow :=
  ((position_filtered t pop).filter (fun r => r.PLAYER_NAME != t.name)).filter
    (fun r => decide (r.PTS ≥ 5))

/-! ### Standardization and cosine similarity (app.py lines 184-199)

`StandardScaler` is fitted on `comparison_df[SIMILARITY_FEATURES]` only:
per-feature mean `μ` and population variance `σ²` (NumPy's biased `/n`
variance); a zero scale is replaced by `1` (`_handle_zeros_in_scale`), so
division by `scale²` is division by `varAdj` below.  The target vector is
only transformed with these population-derived parameters. -/

/-- Feature vector of a population row, in `SIMILARITY_FEATURES` order. -/
def rowFeatures (r : PlayerRow) : List ℚ :=
  [r.PTS, r.REB, r.AST, r.STL, r.BLK, r.FG_PCT, r.FT_PCT]

/-- Feature vector of the target (`target_data`, app.py lines 185-190),
reindexed by `SIMILARITY_FEATURES` (app.py line 196). -/
def targetFeatures (t : TargetStats) : List ℚ :=
  [t.pts, t.reb, t.ast, t.stl, t.blk, t.fg_pct_raw, t.ft_pct_raw]

/-- Per-column means of a feature matrix (rows all have length 7). -/
def colMeans (rows : List (List ℚ)) : List ℚ :=
  (rows.foldl (fun acc v => acc.zipWith (· + ·) v) (List.replicate 7 0)).map
    (· / (rows.length : ℚ))

/-- Per-column biased (`/n`) variances of a feature matrix. -/
def colVars (rows : List (List ℚ)) : List ℚ :=
  ((rows.foldl
      (fun acc v => acc.zipWith (· + ·) (v.zipWith (fun x m => (x - m) * (x - m)) (colMeans rows)))
      (List.replicate 7 0)).map (· / (rows.length : ℚ)))

/-- Adjustment `_handle_zeros_in_scale`: a zero variance (zero scale) is replaced by 1. -/
def varAdj (rows : List (List ℚ)) : List ℚ :=
  (colVars rows).map (fun v => if v = 0 then 1 else v)

/-- Dot product of the standardized vectors `(x-μ)/σ` and `(y-μ)/σ`, computed
without square roots: `σ² = varAdj` componentwise. -/
def scaledDot : List ℚ → List ℚ → List ℚ → List ℚ → ℚ
  | m :: ms, s :: ss, x :: xs, y :: ys =>
      (x - m) * (y - m) / s + scaledDot ms ss xs ys
  | _, _, _, _ => 0

/-- Squared L2 norm of a standardized vector. -/
def scaledSqNorm (ms ss x : List ℚ) : ℚ :=
  scaledDot ms ss x x

/-- sklearn's `normalize` (inside `cosine_similarity`) replaces a zero row
norm by 1 before dividing; on squared norms that is this adjustment. -/
def adjSqNorm (ms ss x : List ℚ) : ℚ :=
  if scaledSqNorm ms ss x = 0 then 1 else scaledSqNorm ms ss x

/-- Monotone rational encoding of `x / √a` for `a > 0`: `sign(x) · x²/a`.
For `a, b > 0`: `x/√a < y/√b` iff (by sign analysis and squaring)
`sqrtRatioKey x a < sqrtRatioKey y b`, and similarly for equality — the
encoding preserves both the order and the ties of the encoded values. -/
def sqrtRatioKey (x a : ℚ) : ℚ :=
  if x ≥ 0 then x * x / a else -(x * x / a)

/-- The similarity rank of a population row: the cosine similarity of the
standardized target and row is `scaledDot t r / (√(adjSqNorm t)·√(adjSqNorm r))`;
the factor `1/√(adjSqNorm t)` is positive and common to every row, so the
scores of two rows compare (and tie) exactly as these rational keys do. -/
def simKey (ms ss tvec : List ℚ) (r : PlayerRow) : ℚ :=
  sqrtRatioKey (scaledDot ms ss tvec (rowFeatures r)) (adjSqNorm ms ss (rowFeatures r))

/-- Selection `comparison_df.sort_values(by='Similarity', ascending=False).iloc[0]`
(app.py line 203).  `sort_values` defaults to `kind='quicksort'` (numpy's
introsort), which is not a stable sort, so the program fixes no particular
order among rows with equal scores: any permutation of the pool that is
descending in the score is an admissible sort result, and `iloc[0]` is then
some row of maximal score.  This fold realizes one admissible outcome — the
first-occurring maximal row, the outcome numpy's small-array insertion sort
produces.  Engine properties that are independent of the tie order (the
filters, membership, maximality of the returned row's score, the outcome
taxonomy) are properties of every admissible outcome and are proved below;
which tied row wins is not guaranteed by the program, and the claim that the
first occurrence always wins is refuted below against the sort contract. -/
def bestRow (key : PlayerRow → ℚ) (p : PlayerRow) (rest : List PlayerRow) : PlayerRow :=
  rest.foldl (fun acc r => if key acc < key r then r else acc) p

/-- The three possible returns of `get_closest_match`:
`model_failed` is the string `"MODEL_FAILED_DUE_TO_DATA_LIMIT"` (line 170),
`too_small` is the string `"數據庫太小，無同位置合格對標選手。"` (line 182), and
`best r` is the f-string naming `r.PLAYER_NAME` with the rounded similarity
percentage (line 206). -/
inductive MatchResult where
  | model_failed
  | too_small
  | best (r : PlayerRow)
deriving DecidableEq

/-- The similarity rank of each row of the comparison pool for target `t`:
the scaler is fitted on the pool's feature matrix only (app.py line 195),
the target is transformed with the fitted parameters (line 196), and the
cosine scores of line 199 compare as these keys do. -/
def poolKey (t : TargetStats) (pool : List PlayerRow) : PlayerRow → ℚ :=
  simKey (colMeans (pool.map rowFeatures)) (varAdj (pool.map rowFeatures))
    (targetFeatures t)

/-- Body of `get_closest_match` after the baseline table is loaded
(app.py lines 167-206): the `None`-or-empty check, the three filters, the
scaler fitted on the comparison pool only, the cosine scores against the
transformed target, and the best-row selection. -/
def get_closest_match_core (all_players : Option (List PlayerRow))
    (t : TargetStats) : MatchResult :=
  match all_players with
  | none => .model_failed
  | some [] => .model_failed
  | some (p₀ :: rest₀) =>
    match comparisonPool t (p₀ :: rest₀) with
    | [] => .too_small
    | p :: rest => .best (bestRow (poolKey t (p :: rest)) p rest)

/-- Function `get_closest_match(target_stats_dict, current_season)`
(app.py lines 161-206). -/
def get_closest_match (provider : String → Option (List RawPlayerRow))
    (t : TargetStats) (current_season : String) : MatchResult :=
  get_closest_match_core (get_all_player_stats provider current_season) t

/-- Square-root-free encoding of the standardized population matrix produced
by `scaler.fit_transform(comparison_df[SIMILARITY_FEATURES])` (app.py line
195): the centered entries `x - μ` together with the per-column adjusted
variances `σ²`; the actual matrix entries are the centered entries divided
componentwise by `√σ²`, so the encoding determines the matrix. -/
def scaledPopulationEnc (t : TargetStats) (pop : List PlayerRow) :
    List (List ℚ) × List ℚ :=
  ((comparisonPool t pop).map
      (fun r => (rowFeatures r).zipWith (fun x m => x - m)
        (colMeans ((comparisonPool t pop).map rowFeatures))),
    varAdj ((comparisonPool t pop).map rowFeatures))

/-- Claim C2 as stated, read against the contract of the unstable sort: for
every admissible result of `sort_values(by='Similarity', ascending=False)`
— any permutation of the comparison pool that is descending in the
similarity rank — the row `iloc[0]` then returns is the row of maximal
similarity that occurs first in the pool's iteration order. -/
def claimC2Statement : Prop :=
  ∀ (t : TargetStats) (pop : List PlayerRow) (sorted : List PlayerRow) (r : PlayerRow),
    sorted.Perm (comparisonPool t pop) →
    sorted.Chain' (fun a b =>
      poolKey t (comparisonPool t pop) b ≤ poolKey t (comparisonPool t pop) a) →
    sorted.head? = some r →
    ∀ y ∈ comparisonPool t pop,
      poolKey t (comparisonPool t pop) r ≤ poolKey t (comparisonPool t pop) y →
        (comparisonPool t pop).indexOf r ≤ (comparisonPool t pop).indexOf y

/-- Claim C3 as stated: an unavailable population gives the
population-unavailable outcome; a population that is empty after the three
filters gives the distinct empty-after-filtering outcome; otherwise a match
is returned. -/
def claimC3Statement : Prop :=
  ∀ (provider : String → Option (List RawPlayerRow)) (t : TargetStats) (s : String),
    (get_all_player_stats provider s = none →
      get_closest_match provider t s = .model_failed) ∧
    (∀ pop, get_all_player_stats provider s = some pop →
      comparisonPool t pop = [] → get_closest_match provider t s = .too_small) ∧
    (∀ pop, get_all_player_stats provider s = some pop →
      comparisonPool t pop ≠ [] → ∃ r, get_closest_match provider t s = .best r)

/-! ### Concrete sample data, used to instantiate the theorems -/

/-- A guard target whose report has full numeric data. -/
def sampleTarget : TargetStats where
  name := "Test Guard"
  position := "Guard"
  pts := 12
  reb := 5
  ast := 7
  stl := 1
  blk := 0
  fg_pct_raw := 1/2
  ft_pct_raw := 4/5

/-- The same target with different per-game production. -/
def sampleTargetB : TargetStats :=
  { sampleTarget with pts := 30, reb := 1, ast := 2, fg_pct_raw := 3/5 }

/-- A qualifying guard row. -/
def sampleRow1 : PlayerRow where
  PLAYER_NAME := "Guard One"
  PLAYER_ID := 1
  PLAYER_POSITION := some "PG"
  PTS := 10
  REB := 4
  AST := 6
  STL := 1
  BLK := 0
  FG_PCT := 1/2
  FT_PCT := 4/5

/-- A second qualifying guard row with exactly the same feature vector as
`sampleRow1` (so the two tie on every similarity score). -/
def sampleRow2 : PlayerRow :=
  { sampleRow1 with PLAYER_NAME := "Guard Two", PLAYER_ID := 2 }

/-- A row carrying the target's own name, as when the target appears
verbatim inside the population. -/
def sampleSelfRow : PlayerRow :=
  { sampleRow1 with
      PLAYER_NAME := "Test Guard"
      PLAYER_ID := 3
      PLAYER_POSITION := some "SG"
      PTS := 20 }

/-- The raw fetched form of `sampleRow1`. -/
def sampleRawRow1 : RawPlayerRow where
  PLAYER_NAME := "Guard One"
  PLAYER_ID := 1
  PLAYER_POSITION := some "PG"
  PTS := some 10
  REB := some 4
  AST := some 6
  STL := some 1
  BLK := some 0
  FG_PCT := some (1/2)
  FT_PCT := some (4/5)

/-- A provider whose baseline table holds exactly `sampleRawRow1`. -/
def sampleProvider : String → Option (List RawPlayerRow) :=
  fun _ => some [sampleRawRow1]

/-! ## Helper lemmas -/

/-- Correctness of the substring test: `hasSubstr pat hay` holds exactly when
`pat` is a contiguous sublist of `hay`. -/
theorem hasSubstr_iff (pat : List Char) :
    ∀ hay : List Char, hasSubstr pat hay = true ↔ pat <:+: hay := by
  intro hay
  induction hay with
  | nil =>
    simp [hasSubstr, List.infix_nil, List.isPrefixOf_iff_prefix, List.prefix_nil]
  | cons c t ih =>
    simp [hasSubstr, List.infix_cons_iff, List.isPrefixOf_iff_prefix, ih]

/-- Folding Mathlib's `argAux` from a `some` seed computes `bestRow`. -/
theorem foldl_argAux_eq_bestRow (key : PlayerRow → ℚ) :
    ∀ (rest : List PlayerRow) (p : PlayerRow),
      rest.foldl (List.argAux fun b c => key c < key b) (some p)
        = some (bestRow key p rest) := by
  intro rest
  induction rest with
  | nil => intro p; rfl
  | cons r rs ih =>
    intro p
    show rs.foldl _ (List.argAux _ (some p) r) = _
    have h1 : List.argAux (fun b c => key c < key b) (some p) r
        = some (if key p < key r then r else p) := by
      simp only [List.argAux]
      split_ifs <;> rfl
    have h2 : bestRow key p (r :: rs)
        = bestRow key (if key p < key r then r else p) rs := rfl
    rw [h1, h2]
    exact ih (if key p < key r then r else p)

/-- The fold in `bestRow` computes Mathlib's first-occurrence `argmax`. -/
theorem argmax_eq_bestRow (key : PlayerRow → ℚ) (p : PlayerRow) (rest : List PlayerRow) :
    List.argmax key (p :: rest) = some (bestRow key p rest) := by
  show (p :: rest).foldl (List.argAux fun b c => key c < key b) none = _
  rw [List.foldl_cons]
  exact foldl_argAux_eq_bestRow key rest p

/-- The selected row is in the pool, carries the maximal key, and among rows
with an equal key it is the one occurring first. -/
theorem bestRow_spec (key : PlayerRow → ℚ) (p : PlayerRow) (rest : List PlayerRow) :
    bestRow key p rest ∈ p :: rest ∧
      (∀ y ∈ p :: rest, key y ≤ key (bestRow key p rest)) ∧
      ∀ y ∈ p :: rest, key (bestRow key p rest) ≤ key y →
        (p :: rest).indexOf (bestRow key p rest) ≤ (p :: rest).indexOf y := by
  have hm : bestRow key p rest ∈ List.argmax key (p :: rest) := by
    rw [argmax_eq_bestRow]; rfl
  exact ⟨List.argmax_mem hm, fun y hy => List.le_of_mem_argmax hy hm,
    fun y hy hk => List.index_of_argmax hm hy hk⟩

/-- Membership in the comparison pool implies membership in the population
and the two filter conditions of app.py lines 178-179. -/
theorem mem_comparisonPool {t : TargetStats} {pop : List PlayerRow} {r : PlayerRow}
    (h : r ∈ comparisonPool t pop) :
    r ∈ pop ∧ r.PLAYER_NAME ≠ t.name ∧ (5 : ℚ) ≤ r.PTS := by
  simp only [comparisonPool, position_filtered, List.mem_filter, decide_eq_true_eq,
    bne_iff_ne, ne_eq, ge_iff_le] at h
  exact ⟨h.1.1.1, h.1.2, h.2⟩

/-- A `best` outcome of the engine core comes from a loaded population, and
the selected row belongs to its comparison pool. -/
theorem core_best_cases {ap : Option (List PlayerRow)} {t : TargetStats} {r : PlayerRow}
    (h : get_closest_match_core ap t = .best r) :
    ∃ pop, ap = some pop ∧ r ∈ comparisonPool t pop := by
  match ap with
  | none => simp [get_closest_match_core] at h
  | some [] => simp [get_closest_match_core] at h
  | some (p₀ :: rest₀) =>
    refine ⟨p₀ :: rest₀, rfl, ?_⟩
    rcases hc : comparisonPool t (p₀ :: rest₀) with _ | ⟨p, rest⟩
    · simp [get_closest_match_core, hc] at h
    · simp only [get_closest_match_core, hc, MatchResult.best.injEq] at h
      rw [← h]
      exact (bestRow_spec (poolKey t (p :: rest)) p rest).1

/-- The three filters read only the target's name and position, so targets
agreeing on both produce the same comparison pool. -/
theorem comparisonPool_congr {t1 t2 : TargetStats} (hn : t1.name = t2.name)
    (hp : t1.position = t2.position) (pop : List PlayerRow) :
    comparisonPool t1 pop = comparisonPool t2 pop := by
  simp only [comparisonPool, position_filtered, hn, hp]

/-! ## Claim theorems -/

/-- C1: `analyze_style` on numeric inputs is a pure total function of
(pts, ast, reb): for every rational triple its label is exactly the one the
spec's five-rule, first-match-wins table `classifyStyle` selects, hence
always one of the five labels. -/
theorem analyze_style_agrees_with_classifyStyle (pts ast reb : ℚ) :
    (analyze_style ⟨some (.num pts), some (.num ast), some (.num reb)⟩).core_style
      = labelText (classifyStyle pts ast reb) := by
  show (analyze_style_num pts ast reb).core_style = labelText (classifyStyle pts ast reb)
  unfold analyze_style_num classifyStyle HIGH_PTS HIGH_AST HIGH_REB
  split_ifs <;> rfl

/-- C9: a non-numeric (`'N/A'`) value among the three stats short-circuits
`analyze_style` to the distinct insufficient-data label, which none of the
five threshold rules can produce. -/
theorem analyze_style_na_insufficient (pts ast reb : Option StatValue)
    (h : pts = some .na ∨ ast = some .na ∨ reb = some .na) :
    analyze_style ⟨pts, ast, reb⟩ = insufficientResult ∧
      ∀ L : Label, insufficientResult.core_style ≠ labelText L := by
  constructor
  · unfold analyze_style
    rcases hp : floatOfStat (pts.getD (.num 0)) with _ | p <;>
      rcases ha : floatOfStat (ast.getD (.num 0)) with _ | a <;>
      rcases hr : floatOfStat (reb.getD (.num 0)) with _ | r <;>
      rcases h with h | h | h <;> simp_all [floatOfStat]
  · intro L
    cases L <;> simp [insufficientResult, labelText]

/-- C9 witness: the `N/A` points entry of a season with no games forces the
insufficient-data result. -/
theorem analyze_style_na_insufficient_witness :
    analyze_style ⟨some .na, some (.num 3), some (.num 4)⟩ = insufficientResult :=
  (analyze_style_na_insufficient (some .na) (some (.num 3)) (some (.num 4))
    (Or.inl rfl)).1

unseal Rat.add Rat.mul Rat.inv Rat.sub in
/-- C2 counterexample: `sampleRow1` and `sampleRow2` have identical feature
vectors, hence tied similarity scores, so `[sampleRow2, sampleRow1]` is an
admissible result of the unstable descending sort — a permutation of the
comparison pool that is descending in the similarity rank — whose first row
is the *second* occurrence in the pool's iteration order.  The program
therefore does not guarantee that the first-occurring tied row is returned,
and the claim as stated is false. -/
theorem claimC2Statement_false : ¬ claimC2Statement := by
  intro hcl
  have h := hcl sampleTarget [sampleRow1, sampleRow2] [sampleRow2, sampleRow1]
    sampleRow2 (by decide)
    (by simp only [List.chain'_cons, List.chain'_singleton, and_true]; decide)
    rfl sampleRow1 (by decide) (by decide)
  exact absurd h (by decide)

/-- C2 amended: a `best` outcome of the engine names a comparison-pool row
whose similarity rank is maximal; when several rows attain the maximum,
which of the tied rows is returned is fixed by the unstable default sort's
tie ordering, not by the pool's iteration order. -/
theorem get_closest_match_max (pop : List PlayerRow) (t : TargetStats)
    (r : PlayerRow) (h : get_closest_match_core (some pop) t = .best r) :
    r ∈ comparisonPool t pop ∧
      ∀ y ∈ comparisonPool t pop,
        poolKey t (comparisonPool t pop) y ≤ poolKey t (comparisonPool t pop) r := by
  match pop with
  | [] => simp [get_closest_match_core] at h
  | p₀ :: rest₀ =>
    rcases hc : comparisonPool t (p₀ :: rest₀) with _ | ⟨p, rest⟩
    · simp [get_closest_match_core, hc] at h
    · simp only [get_closest_match_core, hc, MatchResult.best.injEq] at h
      rw [← h]
      exact ⟨(bestRow_spec (poolKey t (p :: rest)) p rest).1,
        (bestRow_spec (poolKey t (p :: rest)) p rest).2.1⟩

unseal Rat.add Rat.mul Rat.inv Rat.sub in
/-- C2 amended witness: on a two-row pool the returned row's rank dominates
the other row's. -/
theorem get_closest_match_max_witness :
    poolKey sampleTarget (comparisonPool sampleTarget [sampleRow1, sampleRow2])
        sampleRow2 ≤
      poolKey sampleTarget (comparisonPool sampleTarget [sampleRow1, sampleRow2])
        sampleRow1 :=
  (get_closest_match_max [sampleRow1, sampleRow2] sampleTarget sampleRow1
    (by decide)).2 sampleRow2 (by decide)

unseal Rat.add Rat.mul Rat.inv Rat.sub in
/-- C3 counterexample: a provider that supplies an empty (but available)
table makes the code return the population-unavailable outcome
(`"MODEL_FAILED_DUE_TO_DATA_LIMIT"`), whereas the claim's
empty-after-filtering clause demands the other reason, so the claim as
stated is false. -/
theorem claimC3Statement_false : ¬ claimC3Statement := by
  intro hcl
  have h := (hcl (fun _ => some []) sampleTarget "2023-24").2.1 [] rfl rfl
  exact absurd h (by decide)

/-- C3 amended: every call yields exactly one of the three outcomes and
never raises: the unavailable outcome exactly when the provider fails or
supplies an empty table; the distinct too-small outcome exactly when a
non-empty table becomes empty after the three filters; a match otherwise. -/
theorem get_closest_match_outcomes (provider : String → Option (List RawPlayerRow))
    (t : TargetStats) (s : String) :
    (get_closest_match provider t s = .model_failed ↔
      get_all_player_stats provider s = none ∨
        get_all_player_stats provider s = some []) ∧
    (get_closest_match provider t s = .too_small ↔
      ∃ pop, get_all_player_stats provider s = some pop ∧ pop ≠ [] ∧
        comparisonPool t pop = []) ∧
    ((∃ r, get_closest_match provider t s = .best r) ↔
      ∃ pop, get_all_player_stats provider s = some pop ∧
        comparisonPool t pop ≠ []) := by
  rcases hp : get_all_player_stats provider s with _ | pop
  · simp [get_closest_match, hp, get_closest_match_core]
  · rcases pop with _ | ⟨p₀, rest₀⟩
    · simp [get_closest_match, hp, get_closest_match_core, comparisonPool,
        position_filtered]
    · rcases hc : comparisonPool t (p₀ :: rest₀) with _ | ⟨p, rest⟩
      · simp [get_closest_match, hp, get_closest_match_core, hc]
      · simp [get_closest_match, hp, get_closest_match_core, hc]

/-- C4: a match returned by `get_closest_match` never carries the target's
own name — every record with the target's `PLAYER_NAME` is removed from the
comparison pool before scoring. -/
theorem match_never_target_name (provider : String → Option (List RawPlayerRow))
    (t : TargetStats) (s : String) (r : PlayerRow)
    (h : get_closest_match provider t s = .best r) : r.PLAYER_NAME ≠ t.name := by
  obtain ⟨pop, _, hmem⟩ := core_best_cases h
  exact (mem_comparisonPool hmem).2.1

unseal Rat.add Rat.mul Rat.inv Rat.sub in
/-- C4 witness: with a one-row baseline table the engine produces a match,
and its name differs from the target's. -/
theorem match_never_target_name_witness :
    (fillna0 sampleRawRow1).PLAYER_NAME ≠ sampleTarget.name :=
  match_never_target_name sampleProvider sampleTarget "2018-19"
    (fillna0 sampleRawRow1) (by decide)

/-- C5: a match returned by `get_closest_match` never names a player with
points-per-game below the production floor `5.0` — rows with `PTS < 5` are
removed from the comparison pool before scoring. -/
theorem match_pts_floor (provider : String → Option (List RawPlayerRow))
    (t : TargetStats) (s : String) (r : PlayerRow)
    (h : get_closest_match provider t s = .best r) : (5 : ℚ) ≤ r.PTS := by
  obtain ⟨pop, _, hmem⟩ := core_best_cases h
  exact (mem_comparisonPool hmem).2.2

unseal Rat.add Rat.mul Rat.inv Rat.sub in
/-- C5 witness: the matched sample row clears the production floor. -/
theorem match_pts_floor_witness : (5 : ℚ) ≤ (fillna0 sampleRawRow1).PTS :=
  match_pts_floor sampleProvider sampleTarget "2019-20"
    (fillna0 sampleRawRow1) (by decide)

/-- C6: the standardization is fitted over the filtered population only and
never sees the target's feature vector: two targets with the same name and
position — whatever their stats — induce the identical scaled population
matrix (centered entries and fitted variances), so no target-derived values
leak into the fit. -/
theorem scaler_fit_ignores_target_stats (pop : List PlayerRow) (t1 t2 : TargetStats)
    (hn : t1.name = t2.name) (hp : t1.position = t2.position) :
    scaledPopulationEnc t1 pop = scaledPopulationEnc t2 pop := by
  have h := comparisonPool_congr hn hp pop
  simp [scaledPopulationEnc, h]

/-- C6 witness: `sampleTargetB` differs from `sampleTarget` in every stat
feature, yet the fitted scaler and scaled population are identical. -/
theorem scaler_fit_ignores_target_stats_witness :
    scaledPopulationEnc sampleTarget [sampleRow1, sampleSelfRow]
      = scaledPopulationEnc sampleTargetB [sampleRow1, sampleSelfRow] :=
  scaler_fit_ignores_target_stats [sampleRow1, sampleSelfRow] sampleTarget
    sampleTargetB rfl rfl

/-- C7: the position filter retains exactly the population records whose
position string contains the first character of the target's position label
as a case-insensitive substring — substring containment, not equality of
position labels. -/
theorem position_filter_is_substring_match (t : TargetStats) (pop : List PlayerRow)
    (r : PlayerRow) :
    r ∈ position_filtered t pop ↔
      r ∈ pop ∧ ∃ p, r.PLAYER_POSITION = some p ∧
        lowerChars (t.position.take 1) <:+: lowerChars p := by
  simp only [position_filtered, List.mem_filter]
  rcases hpos : r.PLAYER_POSITION with _ | p
  · simp [posContains, hpos]
  · simp [posContains, hpos, hasSubstr_iff]

/-- C8: when exactly one qualifying record survives the three filters, the
engine returns a match naming that record, whatever its similarity score
(including the degenerate single-row standardization that yields the zero
vector). -/
theorem single_qualifier_is_match (pop : List PlayerRow) (t : TargetStats)
    (r : PlayerRow) (h : comparisonPool t pop = [r]) :
    get_closest_match_core (some pop) t = .best r := by
  match pop with
  | [] => simp [comparisonPool, position_filtered] at h
  | p₀ :: rest₀ => simp [get_closest_match_core, h, bestRow]

unseal Rat.add Rat.mul Rat.inv Rat.sub in
/-- C8 witness: the target's verbatim namesake is excluded and the single
remaining qualifying row is the forced match. -/
theorem single_qualifier_is_match_witness :
    get_closest_match_core (some [sampleSelfRow, sampleRow1]) sampleTarget
      = .best sampleRow1 :=
  single_qualifier_is_match [sampleSelfRow, sampleRow1] sampleTarget sampleRow1
    (by decide)

/-- C10: `get_all_player_stats` ignores its season argument — it always
fetches the hardcoded baseline season `'2023-24'` — so any two seasons yield
the identical reference population and identical comparison results for
every target. -/
theorem population_season_independent (provider : String → Option (List RawPlayerRow))
    (s1 s2 : String) :
    get_all_player_stats provider s1 = get_all_player_stats provider s2 ∧
      ∀ t, get_closest_match provider t s1 = get_closest_match provider t s2 :=
  ⟨rfl, fun _ => rfl⟩

end Nba
